import Mathlib

/-!
Verification of the Stockvenant data engine: a shallow embedding of
`src/core/data_store.py` (DataStore), `src/core/calculator.py`
(StockCalculator) and `src/utils/logics.py` into Lean 4, together with
proofs and refutations of the stated specification claims.

Modelling conventions:
* pandas `Timestamp` dates are modelled as `Nat` day numbers; an
  unparseable date cell (`NaT` after `pd.to_datetime(..., errors="coerce")`)
  is `Option.none`.
* Python floats are idealized as `ℚ`; `float(...)` string parsing is
  modelled by `pyFloat`, covering the sign/digits/decimal-point/exponent
  forms (the special forms `inf`, `nan` and underscore separators are
  collapsed to the missing value, which no claim touches).
* A cell is a `Value`: a number, a raw string, or the explicit missing
  marker (`None` / `NaN`, both of which satisfy `pd.isna`).
* Exceptions are modelled with `Except Err`; `Err.otherError` stands for
  an uncaught Python exception that is neither `InputError` nor `DataError`.
-/

namespace Stockvenant

/-- A cell value: a finite numeric value, a raw string, or the explicit
missing marker (Python `None` / `NaN`). -/
inductive Value where
  | num (q : ℚ)
  | str (s : String)
  | missing
deriving DecidableEq

/-- `pd.isna` on a cell. -/
def Value.isna : Value → Bool
  | .missing => true
  | _ => false

/-- Accumulate a digit string into a natural number. -/
def digitsToNat (cs : List Char) : Nat :=
  cs.foldl (fun a c => a * 10 + (c.toNat - 48)) 0

/-- Read an optional leading sign; returns (isNegative, rest). -/
def readSign : List Char → Bool × List Char
  | '+' :: t => (false, t)
  | '-' :: t => (true, t)
  | t => (false, t)

/-- Read the digits of a float exponent (after `e`/`E`); the whole
remainder must be consumed. -/
def readExpDigits (cs : List Char) : Option Int :=
  let (neg, cs1) := readSign cs
  let ds := cs1.takeWhile Char.isDigit
  let rest := cs1.dropWhile Char.isDigit
  if ds.isEmpty ∨ ¬ rest.isEmpty then none
  else some (if neg then -(digitsToNat ds : Int) else (digitsToNat ds : Int))

/-- Read an optional exponent part of a float literal. -/
def readExp : List Char → Option Int
  | [] => some 0
  | c :: t => if c = 'e' ∨ c = 'E' then readExpDigits t else none

/-- The syntactic components accepted by Python `float(s)`: sign, integer
digits, fraction digits with their count, exponent.  `none` where `float`
raises `ValueError`. -/
def pyFloatParts (s : String) : Option (Bool × Nat × Nat × Nat × Int) :=
  let (neg, cs1) := readSign s.data
  let ip := cs1.takeWhile Char.isDigit
  let cs2 := cs1.dropWhile Char.isDigit
  let (fp, cs3) :=
    match cs2 with
    | '.' :: t => (t.takeWhile Char.isDigit, t.dropWhile Char.isDigit)
    | t => (([] : List Char), t)
  if ip.isEmpty ∧ fp.isEmpty then none
  else
    match readExp cs3 with
    | none => none
    | some e => some (neg, digitsToNat ip, digitsToNat fp, fp.length, e)

/-- The numeric value denoted by parsed float components. -/
def partsToRat : Bool × Nat × Nat × Nat × Int → ℚ
  | (neg, ip, fp, fl, e) =>
    let mant : ℚ := (ip : ℚ) + (fp : ℚ) / ((10 : ℚ) ^ fl)
    let v : ℚ := mant * ((10 : ℚ) ^ e)
    if neg then -v else v

/-- Python `float(s)` on an (already trimmed) string: optional sign,
digits with an optional single decimal point, optional exponent. -/
def pyFloat (s : String) : Option ℚ :=
  (pyFloatParts s).map partsToRat

theorem pyFloat_eq_of_parts {s : String} {p : Bool × Nat × Nat × Nat × Int}
    (h : pyFloatParts s = some p) : pyFloat s = some (partsToRat p) := by
  rw [pyFloat, h]
  rfl

theorem pyFloat_eq_none {s : String} (h : pyFloatParts s = none) :
    pyFloat s = none := by
  rw [pyFloat, h]
  rfl

/-- Python whitespace, as stripped by `str.strip()`. -/
def isPySpace (c : Char) : Bool :=
  c = ' ' ∨ c = '\t' ∨ c = '\n' ∨ c = '\r' ∨ c = '\x0b' ∨ c = '\x0c'

/-- `value.replace(",", "")`: delete every comma. -/
def removeCommas (s : String) : String :=
  ⟨s.data.filter (fun c => c ≠ ',')⟩

/-- `value.strip()`: drop leading and trailing whitespace. -/
def pyStrip (s : String) : String :=
  ⟨((s.data.dropWhile isPySpace).reverse.dropWhile isPySpace).reverse⟩

/-- `DataStore._clean_numeric_value` (an identical private copy also lives
on `StockCalculator`): `None`/`NaN` stays missing; floats pass through;
strings have commas removed and surrounding whitespace stripped, an empty
remainder is missing, and the rest goes through `float(...)`, with a parse
failure returning `None` (missing) rather than an error. -/
def clean_numeric_value : Value → Option ℚ
  | .missing => none
  | .num q => some q
  | .str s =>
    let s1 := pyStrip (removeCommas s)
    if s1 = "" then none else pyFloat s1

/-- Python `float(cell)` as used by `logics.get_price_on_or_before`
(no comma stripping: raises on decorated strings, which `pyFloat = none`
models as `Err.otherError` at the call site). -/
def pyFloatValue : Value → Option ℚ
  | .num q => some q
  | .str s => pyFloat (pyStrip s)
  | .missing => none

/-- The character filter of `logics.load_dataset`:
`.str.replace(r"[^0-9.\-]", "", regex=True)` keeps digits, dots and
minus signs and deletes every other character. -/
def stripNonNumeric (s : String) : String :=
  ⟨s.data.filter (fun c => c.isDigit ∨ c = '.' ∨ c = '-')⟩

/-- `pd.to_numeric(cell, errors="coerce")` on a single string cell:
same accepted grammar as `float`, with failures coerced to missing. -/
def to_numeric_cell (s : String) : Option ℚ :=
  pyFloat s

/-! ### The date index

A date label of a date-indexed frame is `Option Nat`: `some d` is a real
day, `none` is `NaT` (a date cell that failed `pd.to_datetime(...,
errors="coerce")`).  `dle` is the order used by `sort_values` /
`sort_index`, which place `NaT` last. -/

/-- Row of a date-indexed frame: (date label, cells aligned with `cols`). -/
abbrev Row := Option Nat × List Value

/-- Date-label order: real dates ascending, `NaT` sorted last. -/
def dle : Option Nat → Option Nat → Bool
  | some m, some n => Nat.ble m n
  | some _, none => true
  | none, some _ => false
  | none, none => true

/-- `dle` as a decidable relation, for `List.insertionSort`. -/
def dleP (a b : Option Nat) : Prop := dle a b = true

instance : DecidableRel dleP := fun a b =>
  decidable_of_iff (dle a b = true) Iff.rfl

/-- Row order by date label, as used by `sort_values("Date")`. -/
def rleP (a b : Row) : Prop := dleP a.1 b.1

instance : DecidableRel rleP := fun a b =>
  decidable_of_iff (dle a.1 b.1 = true) Iff.rfl

theorem dle_trans {a b c : Option Nat} (hab : dle a b = true) (hbc : dle b c = true) :
    dle a c = true := by
  cases a <;> cases b <;> cases c <;>
    simp_all [dle, Nat.ble_eq] <;> omega

theorem dle_total (a b : Option Nat) : dle a b = true ∨ dle b a = true := by
  cases a <;> cases b <;> simp [dle, Nat.ble_eq] <;> omega

theorem dle_antisymm {a b : Option Nat} (hab : dle a b = true) (hba : dle b a = true) :
    a = b := by
  cases a <;> cases b <;> simp_all [dle, Nat.ble_eq] <;> omega

instance : IsTrans (Option Nat) dleP := ⟨fun _ _ _ => dle_trans⟩
instance : IsTotal (Option Nat) dleP := ⟨dle_total⟩
instance : IsAntisymm (Option Nat) dleP := ⟨fun _ _ => dle_antisymm⟩
instance : IsTrans Row rleP := ⟨fun _ _ _ => dle_trans⟩
instance : IsTotal Row rleP := ⟨fun a b => dle_total a.1 b.1⟩

/-! ### DataFrames and raw tabular input -/

/-- A date-indexed pandas frame: symbol columns and date-labelled rows
(each row's cell list is aligned with `cols`). -/
structure DataFrame where
  cols : List String
  rows : List Row
deriving DecidableEq

/-- The date index of a frame. -/
def DataFrame.index (df : DataFrame) : List (Option Nat) :=
  df.rows.map Prod.fst

/-- Position of a column name in a column list. -/
def colIdx (s : String) : List String → Option Nat
  | [] => none
  | c :: cs => if c = s then some 0 else (colIdx s cs).map (· + 1)

/-- The value a row holds for the column named `s` (missing when the
column does not exist). -/
def rowCell (cols : List String) (r : Row) (s : String) : Value :=
  match colIdx s cols with
  | some i => r.2.getD i .missing
  | none => .missing

/-- `df.loc[d, s]`, with absent labels or columns reading as missing
(which is how `combine_first` alignment treats them).  With duplicate
labels this reads the first matching row. -/
def DataFrame.getCell (df : DataFrame) (d : Option Nat) (s : String) : Value :=
  match df.rows.find? (fun r => r.1 == d) with
  | some r => rowCell df.cols r s
  | none => .missing

/-- `df.sort_index()` / `df.sort_values("Date")` on a date-indexed frame. -/
def DataFrame.sort_index (df : DataFrame) : DataFrame :=
  { df with rows := List.insertionSort rleP df.rows }

/-- One aligned cell of `a.combine_first(b)`: `a`'s value where it is
non-missing, `b`'s value otherwise. -/
def combineCell (a b : DataFrame) (d : Option Nat) (s : String) : Value :=
  let va := a.getCell d s
  if va.isna then b.getCell d s else va

/-- `a.combine_first(b)` (pandas): the result's columns and index are the
unions of both; every cell takes `a`'s value where it is non-missing and
`b`'s value otherwise. -/
def combine_first (a b : DataFrame) : DataFrame :=
  let cols := a.cols ++ b.cols.filter (fun s => !(a.cols.contains s))
  let idx := (a.index ++ b.index).dedup
  { cols := cols,
    rows := idx.map (fun d => (d, cols.map (combineCell a b d))) }

/-- A raw tabular input (the result of `pd.read_csv`, or a frame handed to
`update_data` / `merge_with_new_data`): a flag for the presence of the
`Date` column, the parsed date cell of each row (`none` = unparseable),
and the remaining columns. -/
structure RawFrame where
  hasDate : Bool
  cols : List String
  rows : List Row
deriving DecidableEq

/-! ### Errors, events, store state -/

instance {ε α : Type} [DecidableEq ε] [DecidableEq α] : DecidableEq (Except ε α) :=
  fun x y =>
    match x, y with
    | Except.ok a, Except.ok b => decidable_of_iff (a = b) (by simp)
    | Except.error a, Except.error b => decidable_of_iff (a = b) (by simp)
    | Except.ok _, Except.error _ => isFalse (by simp)
    | Except.error _, Except.ok _ => isFalse (by simp)

/-- The two error kinds of the calculator layer, plus `otherError` for an
uncaught Python exception of any other class. -/
inductive Err where
  | inputError (msg : String)
  | dataError (msg : String)
  | otherError (msg : String)
deriving DecidableEq

/-- Qt signals emitted by `DataStore`. -/
inductive Event where
  | data_loaded (d : DataFrame)
  | data_updated (d : DataFrame)
  | symbols_changed (s : List String)
  | error_occurred (msg : String)
deriving DecidableEq

/-- The mutable state of `DataStore`: current frame, derived symbol list
and derived `(min, max)` date range. -/
structure Store where
  df : Option DataFrame
  symbols : List String
  dateRange : Option (Nat × Nat)
deriving DecidableEq

/-- Smallest element of a list of days. -/
def listMin : List Nat → Option Nat
  | [] => none
  | x :: xs => some (xs.foldl Nat.min x)

/-- Largest element of a list of days. -/
def listMax : List Nat → Option Nat
  | [] => none
  | x :: xs => some (xs.foldl Nat.max x)

/-- `DataStore._extract_symbols`: all columns except `Date`. -/
def extract_symbols (df : DataFrame) : List String :=
  df.cols.filter (fun c => c ≠ "Date")

/-- `DataStore._update_date_range`: `(index.min(), index.max())`, which in
pandas skip `NaT`; `(None, None)` when the frame is empty. -/
def update_date_range (df : DataFrame) : Option (Nat × Nat) :=
  if df.rows.isEmpty then none
  else
    match listMin (df.index.filterMap id), listMax (df.index.filterMap id) with
    | some lo, some hi => some (lo, hi)
    | _, _ => none

/-- The ingestion pipeline shared by `load_from_csv` and `update_data`:
drop rows whose date failed to parse, sort by date, set the date index,
and clean every remaining column with `_clean_numeric_value`. -/
def processFrame (raw : RawFrame) : DataFrame :=
  let kept := raw.rows.filter (fun r => r.1.isSome)
  let sorted := List.insertionSort rleP kept
  { cols := raw.cols,
    rows := sorted.map (fun r =>
      (r.1, r.2.map (fun v =>
        match clean_numeric_value v with
        | some q => Value.num q
        | none => Value.missing))) }

/-- Build the post-mutation store state and its success signals. -/
def installFrame (df : DataFrame) (dataEvent : DataFrame → Event) :
    Store × List Event × Bool :=
  let syms := extract_symbols df
  ({ df := some df, symbols := syms, dateRange := update_date_range df },
   [dataEvent df, Event.symbols_changed syms], true)

/-- `DataStore.load_from_csv`.  The `filepath` read is modelled as
`Option RawFrame` (`none` = `pd.read_csv` raised).  Every failure is
caught, reported through `error_occurred`, and returns `False` with the
store untouched. -/
def load_from_csv (store : Store) (input : Option RawFrame) :
    Store × List Event × Bool :=
  match input with
  | none => (store, [Event.error_occurred "Failed to load data"], false)
  | some raw =>
    if raw.rows.isEmpty then
      (store, [Event.error_occurred "Failed to load data: CSV file is empty"], false)
    else if !raw.hasDate then
      (store, [Event.error_occurred "Failed to load data: CSV must have Date column"], false)
    else
      installFrame (processFrame raw) Event.data_loaded

/-- `DataStore.update_data`: same pipeline on an in-memory frame, with
`data_updated` as the success signal. -/
def update_data (store : Store) (raw : RawFrame) : Store × List Event × Bool :=
  if raw.rows.isEmpty then
    (store, [Event.error_occurred "Failed to update data: Cannot update with empty data"], false)
  else if !raw.hasDate then
    (store, [Event.error_occurred "Failed to update data: Data must have Date column"], false)
  else
    installFrame (processFrame raw) Event.data_updated

/-- Whether a label occurs twice in an index.  `combine_first` raises
("cannot reindex on an axis with duplicate labels") when either operand's
index has duplicates. -/
def hasDupLabels : List (Option Nat) → Bool
  | [] => false
  | x :: xs => xs.contains x || hasDupLabels xs

/-- `DataStore.merge_with_new_data`.  With no current frame this defers to
`update_data`.  Otherwise the fragment's `Date` column (always present on
the repository's merge inputs) is parsed and set as index — without
dropping unparseable rows and without numeric cleaning — and the result is
`self._df.combine_first(new_df)` re-sorted by date.  When either index
carries duplicate labels, `combine_first` raises; the surrounding
`try/except` catches it, emits `error_occurred` and returns `False` with
the store untouched. -/
def merge_with_new_data (store : Store) (raw : RawFrame) :
    Store × List Event × Bool :=
  match store.df with
  | none => update_data store raw
  | some old =>
    let newDf : DataFrame := { cols := raw.cols, rows := raw.rows }
    if hasDupLabels old.index || hasDupLabels newDf.index then
      (store, [Event.error_occurred "Failed to merge data"], false)
    else
      let merged := (combine_first old newDf).sort_index
      installFrame merged Event.data_updated

/-! ### StockCalculator (`src/core/calculator.py`) -/

/-- The immutable result record of a trade computation. -/
structure TradeResult where
  stock : String
  quantity : ℚ
  purchase_date : Nat
  sell_date : Nat
  purchase_price : ℚ
  sell_price : ℚ
  purchase_total : ℚ
  sell_total : ℚ
  profit : ℚ
deriving DecidableEq

namespace StockCalculator

/-- `StockCalculator._validate_inputs`: the first violated check raises
`InputError`; the range clamp only runs when the store's date range is
set.  (The `isinstance(..., date)` check cannot fire in this typed
embedding.)  Returns the error of the first violated check, if any. -/
def validate_inputs (store : Store) (stock : String) (quantity : ℚ)
    (purchase_date sell_date : Nat) : Option Err :=
  if stock = "" then
    some (Err.inputError "Stock symbol must be a non-empty string")
  else if quantity ≤ 0 then
    some (Err.inputError "Quantity must be positive")
  else if sell_date ≤ purchase_date then
    some (Err.inputError "Purchase date must be before sell date")
  else
    match store.dateRange with
    | none => none
    | some (lo, hi) =>
      if purchase_date < lo then
        some (Err.inputError "Purchase date is before dataset start")
      else if hi < sell_date then
        some (Err.inputError "Sell date is after dataset end")
      else none

/-- `df.index <= target_date` for one label; `NaT <= ts` is false. -/
def maskLe (target : Nat) : Option Nat → Bool
  | some n => Nat.ble n target
  | none => false

/-- `StockCalculator._get_price_on_date`: return the exact-date price if
present, non-missing and cleanable; otherwise take the last index label
`<= target` ("forward fill" by date only — a missing value there is a
`DataError`, it is not skipped).  The surrounding `try/except` re-wraps
every failure as a `DataError`. -/
def get_price_on_date (df : DataFrame) (stock : String) (target : Nat) :
    Except Err ℚ :=
  let exact : Option ℚ :=
    if df.index.contains (some target) then
      let price := df.getCell (some target) stock
      if !price.isna then clean_numeric_value price else none
    else none
  match exact with
  | some q => Except.ok q
  | none =>
    let valid := df.index.filter (maskLe target)
    match valid.getLast? with
    | none => Except.error (Err.dataError "No data available on or before target date")
    | some nd =>
      let price := df.getCell nd stock
      if price.isna then
        Except.error (Err.dataError "Price is missing on nearest date")
      else
        match clean_numeric_value price with
        | some q => Except.ok q
        | none => Except.error (Err.dataError "Invalid price format")

/-- `StockCalculator.compute_trade`: validate, require a loaded frame and
a known column (`DataError` if absent), resolve both prices, and build the
result record carrying the caller's requested dates. -/
def compute_trade (store : Store) (stock : String) (quantity : ℚ)
    (purchase_date sell_date : Nat) : Except Err TradeResult :=
  match validate_inputs store stock quantity purchase_date sell_date with
  | some e => Except.error e
  | none =>
    match store.df with
    | none => Except.error (Err.dataError "No data loaded")
    | some df =>
      if !df.cols.contains stock then
        Except.error (Err.dataError "Stock not found in dataset")
      else
        match get_price_on_date df stock purchase_date with
        | Except.error e => Except.error e
        | Except.ok purchase_price =>
          match get_price_on_date df stock sell_date with
          | Except.error e => Except.error e
          | Except.ok sell_price =>
            Except.ok
              { stock := stock
                quantity := quantity
                purchase_date := purchase_date
                sell_date := sell_date
                purchase_price := purchase_price
                sell_price := sell_price
                purchase_total := purchase_price * quantity
                sell_total := sell_price * quantity
                profit := sell_price * quantity - purchase_price * quantity }

/-- Insertion into a Python `dict` modelled as an association list:
an existing key is overwritten in place, a new key is appended. -/
def dictInsert (m : List (String × Except Err TradeResult)) (k : String)
    (v : Except Err TradeResult) : List (String × Except Err TradeResult) :=
  if m.any (fun kv => kv.1 == k) then
    m.map (fun kv => if kv.1 == k then (k, v) else kv)
  else m ++ [(k, v)]

/-- `StockCalculator.compute_multiple_trades`: evaluate each symbol with
`compute_trade`, storing the `TradeResult` or the caught
`InputError`/`DataError` under that symbol's key. -/
def compute_multiple_trades (store : Store) (stocks : List String)
    (quantity : ℚ) (purchase_date sell_date : Nat) :
    List (String × Except Err TradeResult) :=
  stocks.foldl
    (fun results stock =>
      dictInsert results stock (compute_trade store stock quantity purchase_date sell_date))
    []

end StockCalculator

/-! ### `src/utils/logics.py` -/

namespace Logics

/-- `Index.asof(ts)` on a (sorted) date index: the last label `<= ts`,
or `NaT` (flattened to `none`) when every label is later. -/
def idx_asof (idx : List (Option Nat)) (t : Nat) : Option Nat :=
  ((idx.filter (fun d => dle d (some t))).getLast?).bind id

/-- `logics.get_price_on_or_before`: an unknown column is an
`InputError`; otherwise drop the missing entries of the symbol's series,
resolve the target by `Index.asof` on the remaining dates (an empty
result is the `InputError` "No trade price available."), and read the
price there through `float(...)`. -/
def get_price_on_or_before (df : DataFrame) (stock : String) (target : Nat) :
    Except Err (Nat × ℚ) :=
  if !df.cols.contains stock then
    Except.error (Err.inputError "Unknown stock column")
  else
    let nonan := df.rows.filter (fun r => !(rowCell df.cols r stock).isna)
    match idx_asof (nonan.map Prod.fst) target with
    | none => Except.error (Err.inputError "No trade price available.")
    | some d =>
      match nonan.find? (fun r => r.1 == some d) with
      | none => Except.error (Err.otherError "label not found")
      | some r =>
        match pyFloatValue (rowCell df.cols r stock) with
        | some q => Except.ok (d, q)
        | none => Except.error (Err.otherError "could not convert value to float")

/-- `logics.compute_trade`: validate quantity and date order, resolve both
as-of lookups, and build the result record carrying the *actual* resolved
dates. -/
def compute_trade (df : DataFrame) (stock : String) (quantity : ℚ)
    (purchase_date sell_date : Nat) : Except Err TradeResult :=
  if quantity ≤ 0 then
    Except.error (Err.inputError "Quantity must be greater than 0")
  else if sell_date < purchase_date then
    Except.error (Err.inputError "Sell date cannot be earlier than purchase date")
  else
    match get_price_on_or_before df stock purchase_date with
    | Except.error e => Except.error e
    | Except.ok (p_actual, p_price) =>
      match get_price_on_or_before df stock sell_date with
      | Except.error e => Except.error e
      | Except.ok (s_actual, s_price) =>
        Except.ok
          { stock := stock
            quantity := quantity
            purchase_date := p_actual
            sell_date := s_actual
            purchase_price := p_price
            sell_price := s_price
            purchase_total := p_price * quantity
            sell_total := s_price * quantity
            profit := s_price * quantity - p_price * quantity }

end Logics

/-! ### Outcome classifiers (used to state error-kind facts without
binders) -/

/-- Whether an `Except` outcome is any error. -/
def isErrorResult {α : Type} : Except Err α → Bool
  | Except.error _ => true
  | Except.ok _ => false

/-- Whether an `Except` outcome is a `DataError`. -/
def isDataErrorResult {α : Type} : Except Err α → Bool
  | Except.error (Err.dataError _) => true
  | _ => false

/-- Whether an `Except` outcome is an `InputError`. -/
def isInputErrorResult {α : Type} : Except Err α → Bool
  | Except.error (Err.inputError _) => true
  | _ => false

/-- Whether an emitted event list is exactly one error notification. -/
def isErrorEventList : List Event → Bool
  | [Event.error_occurred _] => true
  | _ => false

/-! ### Supporting lemmas -/

theorem find?_fst_eq :
    ∀ {l : List Row} {r : Row}, r ∈ l → (l.map Prod.fst).Nodup →
      l.find? (fun x => x.1 == r.1) = some r := by
  intro l
  induction l with
  | nil => intro r hr _; exact absurd hr (List.not_mem_nil r)
  | cons a t ih =>
    intro r hr hnd
    by_cases ha : a.1 = r.1
    · rcases List.mem_cons.mp hr with h | h
      · subst h
        exact List.find?_cons_of_pos t (by simp)
      · exfalso
        have : r.1 ∈ t.map Prod.fst := List.mem_map.mpr ⟨r, h, rfl⟩
        have hnot := (List.nodup_cons.mp hnd).1
        exact hnot (ha ▸ this)
    · have hr' : r ∈ t := by
        rcases List.mem_cons.mp hr with h | h
        · exact absurd (h ▸ rfl) ha
        · exact h
      rw [List.find?_cons_of_neg t (by simp [ha])]
      exact ih hr' (List.nodup_cons.mp hnd).2

/-- With a duplicate-free index, `df.loc[r.date, s]` reads row `r`
itself. -/
theorem getCell_of_mem {df : DataFrame} {r : Row} (hr : r ∈ df.rows)
    (hnd : df.index.Nodup) (s : String) :
    df.getCell r.1 s = rowCell df.cols r s := by
  unfold DataFrame.getCell
  rw [find?_fst_eq hr hnd]

/-- Reading column `s` from a row built by mapping `g` over the column
list gives `g s`. -/
theorem rowCell_map :
    ∀ (cols : List String) (g : String → Value) (d : Option Nat) (s : String),
      s ∈ cols → rowCell cols (d, cols.map g) s = g s := by
  intro cols
  induction cols with
  | nil => intro g d s h; exact absurd h (List.not_mem_nil s)
  | cons c cs ih =>
    intro g d s h
    by_cases hc : c = s
    · subst hc
      simp [rowCell, colIdx]
    · have hs : s ∈ cs := by
        rcases List.mem_cons.mp h with h1 | h1
        · exact absurd h1.symm hc
        · exact h1
      have ihs := ih g d s hs
      simp only [rowCell, colIdx, if_neg hc, List.map_cons] at ihs ⊢
      cases hcol : colIdx s cs with
      | none => rw [hcol] at ihs; simpa using ihs
      | some i => rw [hcol] at ihs; simpa using ihs

/-- In a sorted list, an element that bounds every other element from
above is the last one. -/
theorem getLast?_of_sorted_max :
    ∀ {L : List (Option Nat)}, L.Sorted dleP →
      ∀ {a : Option Nat}, a ∈ L → (∀ x ∈ L, dleP x a) → L.getLast? = some a := by
  intro L
  induction L with
  | nil => intro _ a ha _; exact absurd ha (List.not_mem_nil a)
  | cons b t ih =>
    intro hs a ha hmax
    cases t with
    | nil =>
      rcases List.mem_cons.mp ha with h | h
      · subst h; rfl
      · exact absurd h (List.not_mem_nil a)
    | cons c t' =>
      have hs' : (c :: t').Sorted dleP := hs.tail
      have hmem : a ∈ c :: t' := by
        rcases List.mem_cons.mp ha with h | h
        · subst h
          have hac : dleP a c := List.rel_of_sorted_cons hs c (List.mem_cons_self c t')
          have hca : dleP c a := hmax c (List.mem_cons_of_mem _ (List.mem_cons_self c t'))
          have : c = a := dle_antisymm hca hac
          exact this ▸ List.mem_cons_self c t'
        · exact h
      rw [List.getLast?_cons_cons]
      exact ih hs' hmem (fun x hx => hmax x (List.mem_cons_of_mem _ hx))

/-- The last index label surviving a Boolean filter on a sorted index is
the largest label satisfying the filter. -/
theorem getLast?_filter_max {idx : List (Option Nat)} {q : Option Nat → Bool}
    (hsort : idx.Sorted dleP) {N : Option Nat} (hmem : N ∈ idx)
    (hq : q N = true) (hbound : ∀ x ∈ idx, q x = true → dleP x N) :
    (idx.filter q).getLast? = some N := by
  apply getLast?_of_sorted_max (hsort.sublist (List.filter_sublist idx))
  · exact List.mem_filter.mpr ⟨hmem, hq⟩
  · intro x hx
    have := List.mem_filter.mp hx
    exact hbound x this.1 this.2

/-! ### C1 — merge conflict rule -/

/-- Store already holding the Dataset `{date 1: A = 5}`. -/
def C1df : DataFrame := { cols := ["A"], rows := [(some 1, [Value.num 5])] }

/-- Store state around `C1df`. -/
def C1store : Store := { df := some C1df, symbols := ["A"], dateRange := some (1, 1) }

/-- Incoming fragment defining the same cell `(date 1, A)` with the new
value `7`. -/
def C1frag : RawFrame := { hasDate := true, cols := ["A"], rows := [(some 1, [Value.num 7])] }

/-- C1: the spec (and the code's own comment "new data overwrites old on
conflicts") say the fragment's value wins at a cell defined on both
sides, but `self._df.combine_first(new_df)` keeps the OLD value: merging
`{date 1: A = 7}` into a store holding `{date 1: A = 5}` leaves the cell
at `5`. -/
theorem C1_merge_keeps_old_value :
    (merge_with_new_data C1store C1frag).1.df =
      some { cols := ["A"], rows := [(some 1, [Value.num 5])] } := by
  decide

/-! ### C5 — mutation atomicity -/

theorem update_data_fail_aux (store : Store) (raw : RawFrame)
    (h : (update_data store raw).2.2 = false) :
    (update_data store raw).1 = store ∧
      isErrorEventList (update_data store raw).2.1 = true := by
  unfold update_data at h ⊢
  by_cases h1 : raw.rows.isEmpty
  · simp [h1, isErrorEventList]
  · by_cases h2 : raw.hasDate
    · simp [h1, h2, installFrame] at h
    · simp [h1, h2, isErrorEventList]

/-- C5: every failing store mutation (load, update, merge) leaves the
store state exactly as it was, emits exactly one `error_occurred`
notification, and returns `False` instead of raising. -/
theorem C5_mutation_atomicity (store : Store) (inp : Option RawFrame)
    (raw raw2 : RawFrame) :
    ((load_from_csv store inp).2.2 = false →
      (load_from_csv store inp).1 = store ∧
        isErrorEventList (load_from_csv store inp).2.1 = true) ∧
    ((update_data store raw).2.2 = false →
      (update_data store raw).1 = store ∧
        isErrorEventList (update_data store raw).2.1 = true) ∧
    ((merge_with_new_data store raw2).2.2 = false →
      (merge_with_new_data store raw2).1 = store ∧
        isErrorEventList (merge_with_new_data store raw2).2.1 = true) := by
  refine ⟨?_, update_data_fail_aux store raw, ?_⟩
  · intro h
    match inp with
    | none => exact ⟨rfl, rfl⟩
    | some raw' =>
      unfold load_from_csv at h ⊢
      by_cases h1 : raw'.rows.isEmpty
      · simp [h1, isErrorEventList]
      · by_cases h2 : raw'.hasDate
        · simp [h1, h2, installFrame] at h
        · simp [h1, h2, isErrorEventList]
  · intro h
    unfold merge_with_new_data at h ⊢
    cases hdf : store.df with
    | none =>
      rw [hdf] at h
      exact update_data_fail_aux store raw2 h
    | some old =>
      rw [hdf] at h
      by_cases hdup : (hasDupLabels old.index ||
          hasDupLabels ({ cols := raw2.cols, rows := raw2.rows } : DataFrame).index) = true
      · simp [hdup, isErrorEventList]
      · simp [hdup, installFrame] at h

/-- Dataset with duplicate date labels (ingestion keeps duplicates, so
this store state is reachable); merging into it makes `combine_first`
raise. -/
def C5dupdf : DataFrame :=
  { cols := ["A"], rows := [(some 1, [Value.num 10]), (some 1, [Value.num 20])] }

/-- Store state around `C5dupdf`. -/
def C5dupStore : Store := { df := some C5dupdf, symbols := ["A"], dateRange := some (1, 1) }

/-- An empty raw frame (update rejects it). -/
def C5emptyRaw : RawFrame := { hasDate := true, cols := [], rows := [] }

/-- A well-formed fragment; merging it into `C5dupStore` still fails
because the stored index has duplicate labels. -/
def C5frag : RawFrame :=
  { hasDate := true, cols := ["A"], rows := [(some 2, [Value.num 7])] }

/-- C5 witness: a read failure, an empty update, and a merge into a
loaded store whose index has duplicate labels all actually fail (each
antecedent holds) and leave the concrete store untouched with one error
notification. -/
theorem C5_mutation_atomicity_witness :
    ((load_from_csv C5dupStore none).2.2 = false ∧
      (load_from_csv C5dupStore none).1 = C5dupStore ∧
        isErrorEventList (load_from_csv C5dupStore none).2.1 = true) ∧
    ((update_data C5dupStore C5emptyRaw).2.2 = false ∧
      (update_data C5dupStore C5emptyRaw).1 = C5dupStore ∧
        isErrorEventList (update_data C5dupStore C5emptyRaw).2.1 = true) ∧
    ((merge_with_new_data C5dupStore C5frag).2.2 = false ∧
      (merge_with_new_data C5dupStore C5frag).1 = C5dupStore ∧
        isErrorEventList (merge_with_new_data C5dupStore C5frag).2.1 = true) := by
  have h := C5_mutation_atomicity C5dupStore none C5emptyRaw C5frag
  have hl : (load_from_csv C5dupStore none).2.2 = false := by decide
  have hu : (update_data C5dupStore C5emptyRaw).2.2 = false := by decide
  have hm : (merge_with_new_data C5dupStore C5frag).2.2 = false := by decide
  exact ⟨⟨hl, (h.1 hl).1, (h.1 hl).2⟩, ⟨hu, (h.2.1 hu).1, (h.2.1 hu).2⟩,
    ⟨hm, (h.2.2 hm).1, (h.2.2 hm).2⟩⟩

/-! ### C6 — validation order -/

/-- C6: with a loaded dataset (date range available), the single-trade
computation checks, in order: non-empty symbol, positive quantity,
purchase strictly before sell, requested purchase date not before the
dataset minimum, requested sell date not after the dataset maximum; the
first violated check yields that `InputError`, independent of the price
data (so before any price lookup). -/
theorem C6_validation_order (store : Store) (stock : String) (q : ℚ)
    (p s lo hi : Nat) (hrange : store.dateRange = some (lo, hi)) :
    (stock = "" →
      StockCalculator.compute_trade store stock q p s =
        Except.error (Err.inputError "Stock symbol must be a non-empty string")) ∧
    (stock ≠ "" → q ≤ 0 →
      StockCalculator.compute_trade store stock q p s =
        Except.error (Err.inputError "Quantity must be positive")) ∧
    (stock ≠ "" → 0 < q → s ≤ p →
      StockCalculator.compute_trade store stock q p s =
        Except.error (Err.inputError "Purchase date must be before sell date")) ∧
    (stock ≠ "" → 0 < q → p < s → p < lo →
      StockCalculator.compute_trade store stock q p s =
        Except.error (Err.inputError "Purchase date is before dataset start")) ∧
    (stock ≠ "" → 0 < q → p < s → lo ≤ p → hi < s →
      StockCalculator.compute_trade store stock q p s =
        Except.error (Err.inputError "Sell date is after dataset end")) := by
  refine ⟨?_, ?_, ?_, ?_, ?_⟩
  · intro h1
    have hv : StockCalculator.validate_inputs store stock q p s =
        some (Err.inputError "Stock symbol must be a non-empty string") := by
      unfold StockCalculator.validate_inputs
      rw [if_pos h1]
    simp [StockCalculator.compute_trade, hv]
  · intro h1 h2
    have hv : StockCalculator.validate_inputs store stock q p s =
        some (Err.inputError "Quantity must be positive") := by
      unfold StockCalculator.validate_inputs
      rw [if_neg h1, if_pos h2]
    simp [StockCalculator.compute_trade, hv]
  · intro h1 h2 h3
    have hv : StockCalculator.validate_inputs store stock q p s =
        some (Err.inputError "Purchase date must be before sell date") := by
      unfold StockCalculator.validate_inputs
      rw [if_neg h1, if_neg (not_le.mpr h2), if_pos h3]
    simp [StockCalculator.compute_trade, hv]
  · intro h1 h2 h3 h4
    have hv : StockCalculator.validate_inputs store stock q p s =
        some (Err.inputError "Purchase date is before dataset start") := by
      unfold StockCalculator.validate_inputs
      rw [if_neg h1, if_neg (not_le.mpr h2), if_neg (not_le.mpr h3), hrange]
      simp [h4]
    simp [StockCalculator.compute_trade, hv]
  · intro h1 h2 h3 h4 h5
    have hv : StockCalculator.validate_inputs store stock q p s =
        some (Err.inputError "Sell date is after dataset end") := by
      unfold StockCalculator.validate_inputs
      rw [if_neg h1, if_neg (not_le.mpr h2), if_neg (not_le.mpr h3), hrange]
      simp [not_lt.mpr h4, h5]
    simp [StockCalculator.compute_trade, hv]

/-- Dataset for the C6 witness: dates 1 and 4, one column. -/
def C6df : DataFrame :=
  { cols := ["A"], rows := [(some 1, [Value.num 10]), (some 4, [Value.num 20])] }

/-- Store state around `C6df`. -/
def C6store : Store := { df := some C6df, symbols := ["A"], dateRange := some (1, 4) }

/-- C6 witness: each validation failure observed on a concrete store. -/
theorem C6_validation_order_witness :
    StockCalculator.compute_trade C6store "" 1 1 2 =
        Except.error (Err.inputError "Stock symbol must be a non-empty string") ∧
    StockCalculator.compute_trade C6store "A" 0 1 2 =
        Except.error (Err.inputError "Quantity must be positive") ∧
    StockCalculator.compute_trade C6store "A" 1 3 2 =
        Except.error (Err.inputError "Purchase date must be before sell date") ∧
    StockCalculator.compute_trade C6store "A" 1 0 2 =
        Except.error (Err.inputError "Purchase date is before dataset start") ∧
    StockCalculator.compute_trade C6store "A" 1 1 5 =
        Except.error (Err.inputError "Sell date is after dataset end") :=
  ⟨(C6_validation_order C6store "" 1 1 2 1 4 rfl).1 rfl,
   (C6_validation_order C6store "A" 0 1 2 1 4 rfl).2.1 (by decide) (by norm_num),
   (C6_validation_order C6store "A" 1 3 2 1 4 rfl).2.2.1 (by decide) (by norm_num) (by norm_num),
   (C6_validation_order C6store "A" 1 0 2 1 4 rfl).2.2.2.1 (by decide) (by norm_num) (by norm_num)
     (by norm_num),
   (C6_validation_order C6store "A" 1 1 5 1 4 rfl).2.2.2.2 (by decide) (by norm_num) (by norm_num)
     (by norm_num) (by norm_num)⟩

/-! ### C3 — error kind for an unknown symbol -/

/-- Dataset for the C3 statements: dates 1 and 4, one column `A`. -/
def C3df : DataFrame :=
  { cols := ["A"], rows := [(some 1, [Value.num 10]), (some 4, [Value.num 20])] }

/-- Store state around `C3df`. -/
def C3store : Store := { df := some C3df, symbols := ["A"], dateRange := some (1, 4) }

/-- C3 counterexample: a trade computation on a symbol that is not a
column of the loaded Dataset fails with `DataError`, not `InputError`
(`StockCalculator.compute_trade` raises
`DataError("Stock ... not found in dataset")`). -/
theorem C3_unknown_symbol_counterexample :
    StockCalculator.compute_trade C3store "ZZZ" 1 1 2 =
        Except.error (Err.dataError "Stock not found in dataset") ∧
    isInputErrorResult (StockCalculator.compute_trade C3store "ZZZ" 1 1 2) = false := by
  decide

/-- C3 (amended): the `logics` as-of lookup, and the `logics` trade
computation through it, fail with `InputError` on an unknown symbol; the
`StockCalculator` trade computation instead fails with `DataError` when
the symbol is not a column. -/
theorem C3_unknown_symbol_amended :
    (∀ (df : DataFrame) (stock : String) (t : Nat),
      df.cols.contains stock = false →
      Logics.get_price_on_or_before df stock t =
        Except.error (Err.inputError "Unknown stock column")) ∧
    (∀ (df : DataFrame) (stock : String) (q : ℚ) (p s : Nat),
      df.cols.contains stock = false → 0 < q → p ≤ s →
      Logics.compute_trade df stock q p s =
        Except.error (Err.inputError "Unknown stock column")) ∧
    (∀ (store : Store) (df : DataFrame) (stock : String) (q : ℚ) (p s lo hi : Nat),
      store.df = some df → store.dateRange = some (lo, hi) →
      df.cols.contains stock = false →
      stock ≠ "" → 0 < q → p < s → lo ≤ p → s ≤ hi →
      StockCalculator.compute_trade store stock q p s =
        Except.error (Err.dataError "Stock not found in dataset")) := by
  have hlook : ∀ (df : DataFrame) (stock : String) (t : Nat),
      df.cols.contains stock = false →
      Logics.get_price_on_or_before df stock t =
        Except.error (Err.inputError "Unknown stock column") := by
    intro df stock t h
    unfold Logics.get_price_on_or_before
    rw [h]
    rfl
  refine ⟨hlook, ?_, ?_⟩
  · intro df stock q p s h hq hps
    unfold Logics.compute_trade
    rw [if_neg (not_le.mpr hq), if_neg (not_lt.mpr hps), hlook df stock p h]
  · intro store df stock q p s lo hi hdf hrange hcols h1 h2 h3 h4 h5
    have hv : StockCalculator.validate_inputs store stock q p s = none := by
      unfold StockCalculator.validate_inputs
      rw [if_neg h1, if_neg (not_le.mpr h2), if_neg (not_le.mpr h3), hrange]
      simp [not_lt.mpr h4, not_lt.mpr h5]
    unfold StockCalculator.compute_trade
    rw [hv, hdf]
    simp [hcols]
    intro hmem
    exact absurd hmem (by simpa using hcols)

/-- C3 witness: both amended behaviors observed on a concrete store. -/
theorem C3_unknown_symbol_amended_witness :
    Logics.get_price_on_or_before C3df "QQQ" 2 =
        Except.error (Err.inputError "Unknown stock column") ∧
    Logics.compute_trade C3df "QQQ" 1 1 2 =
        Except.error (Err.inputError "Unknown stock column") ∧
    StockCalculator.compute_trade C3store "QQQ" 1 1 2 =
        Except.error (Err.dataError "Stock not found in dataset") :=
  ⟨C3_unknown_symbol_amended.1 C3df "QQQ" 2 (by decide),
   C3_unknown_symbol_amended.2.1 C3df "QQQ" 1 1 2 (by decide) (by norm_num) (by norm_num),
   C3_unknown_symbol_amended.2.2 C3store C3df "QQQ" 1 1 2 1 4 rfl rfl (by decide)
     (by decide) (by norm_num) (by norm_num) (by norm_num) (by norm_num)⟩

/-! ### C4 — requested vs actual dates in the result record -/

/-- Dataset for the C4 statements: dates 1 and 4, one column `A`. -/
def C4df : DataFrame :=
  { cols := ["A"], rows := [(some 1, [Value.num 10]), (some 4, [Value.num 20])] }

/-- Store state around `C4df`. -/
def C4store : Store := { df := some C4df, symbols := ["A"], dateRange := some (1, 4) }

/-- C4 counterexample: requesting purchase date 2 resolves by as-of
fallback to the actual date 1, yet `StockCalculator.compute_trade`
returns a `TradeResult` whose `purchase_date` is the requested date 2. -/
theorem C4_requested_dates_counterexample :
    (StockCalculator.compute_trade C4store "A" 1 2 4).map
        (fun r => r.purchase_date) = Except.ok 2 ∧
    Logics.get_price_on_or_before C4df "A" 2 = Except.ok (1, 10) := by
  decide

/-- C4 (amended): `logics.compute_trade` carries the *actual* resolved
dates in the result record, while `StockCalculator.compute_trade` carries
the caller's *requested* dates. -/
theorem C4_result_dates_amended :
    (∀ (store : Store) (stock : String) (q : ℚ) (p s : Nat) (r : TradeResult),
      StockCalculator.compute_trade store stock q p s = Except.ok r →
      r.purchase_date = p ∧ r.sell_date = s) ∧
    (∀ (df : DataFrame) (stock : String) (q : ℚ) (p s pa sa : Nat) (pp sp : ℚ),
      0 < q → p ≤ s →
      Logics.get_price_on_or_before df stock p = Except.ok (pa, pp) →
      Logics.get_price_on_or_before df stock s = Except.ok (sa, sp) →
      Logics.compute_trade df stock q p s =
        Except.ok
          { stock := stock, quantity := q, purchase_date := pa, sell_date := sa,
            purchase_price := pp, sell_price := sp, purchase_total := pp * q,
            sell_total := sp * q, profit := sp * q - pp * q }) := by
  constructor
  · intro store stock q p s r h
    unfold StockCalculator.compute_trade at h
    repeat' split at h
    all_goals simp_all
    exact ⟨by rw [← h], by rw [← h]⟩
  · intro df stock q p s pa sa pp sp hq hps hp hs
    unfold Logics.compute_trade
    rw [if_neg (not_le.mpr hq), if_neg (not_lt.mpr hps), hp, hs]

/-- The concrete result of the C4 witness trade. -/
def C4result : TradeResult :=
  { stock := "A", quantity := 1, purchase_date := 2, sell_date := 4,
    purchase_price := 10, sell_price := 20, purchase_total := 10,
    sell_total := 20, profit := 10 }

/-- C4 witness: the amended behaviors at a concrete trade. -/
theorem C4_result_dates_amended_witness :
    C4result.purchase_date = 2 ∧ C4result.sell_date = 4 ∧
    Logics.compute_trade C4df "A" 1 2 4 =
      Except.ok
        { stock := "A", quantity := 1, purchase_date := 1, sell_date := 4,
          purchase_price := 10, sell_price := 20, purchase_total := 10,
          sell_total := 20, profit := 10 } := by
  have hv : StockCalculator.validate_inputs C4store "A" 1 2 4 = none := by decide
  have hg1 : StockCalculator.get_price_on_date C4df "A" 2 = Except.ok 10 := by decide
  have hg2 : StockCalculator.get_price_on_date C4df "A" 4 = Except.ok 20 := by decide
  have hstep : StockCalculator.compute_trade C4store "A" 1 2 4 =
      match StockCalculator.get_price_on_date C4df "A" 2 with
      | Except.error e => Except.error e
      | Except.ok pp =>
        match StockCalculator.get_price_on_date C4df "A" 4 with
        | Except.error e => Except.error e
        | Except.ok sp =>
          Except.ok
            { stock := "A", quantity := 1, purchase_date := 2, sell_date := 4,
              purchase_price := pp, sell_price := sp, purchase_total := pp * 1,
              sell_total := sp * 1, profit := sp * 1 - pp * 1 } := by
    unfold StockCalculator.compute_trade
    rw [hv]
    rfl
  have hc : StockCalculator.compute_trade C4store "A" 1 2 4 = Except.ok C4result := by
    rw [hstep, hg1, hg2]
    norm_num [C4result]
  have h1 := C4_result_dates_amended.1 C4store "A" 1 2 4 C4result hc
  have h2 := C4_result_dates_amended.2 C4df "A" 1 2 4 1 4 10 20 (by norm_num)
    (by norm_num) (by decide) (by decide)
  refine ⟨h1.1, h1.2, ?_⟩
  rw [h2]
  norm_num

/-! ### C9 — numeric cleaning -/

/-- C9 counterexample: the claim says non-numeric decoration is stripped
(keeping digits, sign and decimal point) before parsing, which would turn
`"$5"` into `5.0`; `DataStore._clean_numeric_value` only removes commas
and whitespace, so `"$5"` becomes missing instead. -/
theorem C9_decoration_counterexample :
    clean_numeric_value (Value.str "$5") = none ∧
    pyFloat (stripNonNumeric "$5") = some 5 := by
  constructor
  · decide
  · have h : pyFloatParts (stripNonNumeric "$5") = some (false, 5, 0, 0, 0) := by decide
    rw [pyFloat_eq_of_parts h]
    norm_num [partsToRat]

/-- C9 (amended): `_clean_numeric_value` removes only commas and
surrounding whitespace before `float(...)` — `"1,234.50"` cleans to
`1234.5`, the empty cell and any unparsable remainder clean to missing
rather than erroring; the decoration-stripping behavior belongs to
`logics.load_dataset`, whose regex keeps digits, dots and minus signs. -/
theorem C9_cleaning_amended :
    clean_numeric_value (Value.str "1,234.50") = some (1234.5 : ℚ) ∧
    clean_numeric_value (Value.str "") = none ∧
    (∀ s : String, pyFloat (pyStrip (removeCommas s)) = none →
      clean_numeric_value (Value.str s) = none) ∧
    to_numeric_cell (stripNonNumeric "$1,234.50") = some (1234.5 : ℚ) := by
  have hp : pyFloatParts "1234.50" = some (false, 1234, 50, 2, 0) := by decide
  have hval : partsToRat (false, 1234, 50, 2, 0) = (1234.5 : ℚ) := by
    norm_num [partsToRat]
  refine ⟨?_, by decide, ?_, ?_⟩
  · show (if pyStrip (removeCommas "1,234.50") = "" then none
      else pyFloat (pyStrip (removeCommas "1,234.50"))) = some (1234.5 : ℚ)
    rw [show pyStrip (removeCommas "1,234.50") = "1234.50" from by decide,
      if_neg (by decide), pyFloat_eq_of_parts hp, hval]
  · intro s h
    unfold clean_numeric_value
    by_cases h1 : pyStrip (removeCommas s) = ""
    · simp [h1]
    · simp [h1, h]
  · show pyFloat (stripNonNumeric "$1,234.50") = some (1234.5 : ℚ)
    rw [show stripNonNumeric "$1,234.50" = "1234.50" from by decide,
      pyFloat_eq_of_parts hp, hval]

/-- C9 witness: the unparsable-remainder clause at `"abc"`. -/
theorem C9_cleaning_amended_witness :
    clean_numeric_value (Value.str "abc") = none :=
  C9_cleaning_amended.2.2.1 "abc" (by decide)

/-! ### C2 — as-of lookup semantics -/

/-- Dataset for the C2 statements: price 10 on date 1, an explicitly
missing cell on date 2. -/
def C2df : DataFrame :=
  { cols := ["A"], rows := [(some 1, [Value.num 10]), (some 2, [Value.missing])] }

/-- C2 counterexample: with a non-missing price on date 1 and a missing
cell on date 2, resolving target 2 through the calculator's lookup does
NOT skip the missing cell back to date 1 — it fails with `DataError`; and
when no date at or before the target has a non-missing price, the
`logics` lookup fails with `InputError`, not `DataError`. -/
theorem C2_no_skip_counterexample :
    StockCalculator.get_price_on_date C2df "A" 2 =
        Except.error (Err.dataError "Price is missing on nearest date") ∧
    Logics.get_price_on_or_before C2df "A" 0 =
        Except.error (Err.inputError "No trade price available.") ∧
    isDataErrorResult (Logics.get_price_on_or_before C2df "A" 0) = false := by
  decide

/-- C2 (amended): the two as-of implementations differ.
`logics.get_price_on_or_before` skips missing cells: if date `D ≤ T`
carries a non-missing price `P` and no date in `(D, T]` does, it returns
`(P, D)`, and it fails with `InputError` (not `DataError`) when no date
`≤ T` carries a non-missing price.  `StockCalculator._get_price_on_date`
does not skip: it resolves to the greatest date `≤ T` and fails with
`DataError` when the value there is missing, even if an earlier date
holds a price. -/
theorem C2_asof_amended :
    (∀ (df : DataFrame) (stock : String) (T D : Nat) (P : ℚ),
      df.index.Sorted dleP → df.index.Nodup →
      df.cols.contains stock = true →
      (some D) ∈ df.index →
      df.getCell (some D) stock = Value.num P →
      D ≤ T →
      (∀ n, (some n) ∈ df.index → D < n → n ≤ T →
        (df.getCell (some n) stock).isna = true) →
      Logics.get_price_on_or_before df stock T = Except.ok (D, P)) ∧
    (∀ (df : DataFrame) (stock : String) (T : Nat),
      df.index.Nodup →
      df.cols.contains stock = true →
      (∀ n, (some n) ∈ df.index → n ≤ T →
        (df.getCell (some n) stock).isna = true) →
      Logics.get_price_on_or_before df stock T =
        Except.error (Err.inputError "No trade price available.")) ∧
    (∀ (df : DataFrame) (stock : String) (T N : Nat),
      df.index.Sorted dleP → df.index.Nodup →
      (some N) ∈ df.index → N ≤ T →
      (df.getCell (some N) stock).isna = true →
      (∀ n, (some n) ∈ df.index → n ≤ T → n ≤ N) →
      StockCalculator.get_price_on_date df stock T =
        Except.error (Err.dataError "Price is missing on nearest date")) := by
  refine ⟨?_, ?_, ?_⟩
  · -- logics, successful skip
    intro df stock T D P hsort hnd hstock hmem hcell hDT hafter
    obtain ⟨rD, hrD, hrD1⟩ := List.mem_map.mp hmem
    have hrowD : rowCell df.cols rD stock = Value.num P := by
      have h := getCell_of_mem hrD hnd stock
      rw [hrD1] at h
      rw [← h]
      exact hcell
    have hsub : List.Sublist ((df.rows.filter
        (fun r => !(rowCell df.cols r stock).isna)).map Prod.fst) df.index :=
      (List.filter_sublist df.rows).map Prod.fst
    have hLsorted := hsort.sublist hsub
    have hndN := hsub.nodup hnd
    have hDnonan : rD ∈ df.rows.filter (fun r => !(rowCell df.cols r stock).isna) :=
      List.mem_filter.mpr ⟨hrD, by rw [hrowD]; rfl⟩
    have hDmem : (some D) ∈ (df.rows.filter
        (fun r => !(rowCell df.cols r stock).isna)).map Prod.fst :=
      List.mem_map.mpr ⟨rD, hDnonan, hrD1⟩
    have hq : dle (some D) (some T) = true := by
      simpa [dle, Nat.ble_eq] using hDT
    have hbound : ∀ x ∈ (df.rows.filter
        (fun r => !(rowCell df.cols r stock).isna)).map Prod.fst,
        dle x (some T) = true → dleP x (some D) := by
      intro x hx hxT
      obtain ⟨rx, hrx, hrx1⟩ := List.mem_map.mp hx
      have hrxrows : rx ∈ df.rows := List.mem_of_mem_filter hrx
      cases x with
      | none => exact absurd hxT (by simp [dle])
      | some n =>
        have hnT : n ≤ T := by simpa [dle, Nat.ble_eq] using hxT
        have hxmem : (some n) ∈ df.index := List.mem_map.mpr ⟨rx, hrxrows, hrx1⟩
        by_cases hDn : D < n
        · exfalso
          have hna := hafter n hxmem hDn hnT
          have hcellx : df.getCell (some n) stock = rowCell df.cols rx stock := by
            have h := getCell_of_mem hrxrows hnd stock
            rw [hrx1] at h
            exact h
          have hp := (List.mem_filter.mp hrx).2
          rw [← hcellx, hna] at hp
          simp at hp
        · have hnD : n ≤ D := Nat.le_of_not_lt hDn
          simpa [dleP, dle, Nat.ble_eq] using hnD
    have hlast := getLast?_filter_max hLsorted hDmem hq hbound
    have hasof : Logics.idx_asof ((df.rows.filter
        (fun r => !(rowCell df.cols r stock).isna)).map Prod.fst) T = some D := by
      unfold Logics.idx_asof
      rw [hlast]
      rfl
    have hfind : (df.rows.filter (fun r => !(rowCell df.cols r stock).isna)).find?
        (fun r => r.1 == some D) = some rD := by
      have h := find?_fst_eq hDnonan hndN
      rw [hrD1] at h
      exact h
    unfold Logics.get_price_on_or_before
    rw [hstock]
    simp only [Bool.not_true, Bool.false_eq_true, if_false]
    rw [hasof]
    simp only [hfind, hrowD, pyFloatValue]
  · -- logics, no resolvable price
    intro df stock T hnd hstock hnone
    have hempty : ((df.rows.filter
        (fun r => !(rowCell df.cols r stock).isna)).map Prod.fst).filter
        (fun d => dle d (some T)) = [] := by
      rw [List.filter_eq_nil_iff]
      intro x hx
      obtain ⟨rx, hrx, hrx1⟩ := List.mem_map.mp hx
      have hrxrows : rx ∈ df.rows := List.mem_of_mem_filter hrx
      cases x with
      | none => simp [dle]
      | some n =>
        intro hxT
        have hnT : n ≤ T := by simpa [dle, Nat.ble_eq] using hxT
        have hxmem : (some n) ∈ df.index := List.mem_map.mpr ⟨rx, hrxrows, hrx1⟩
        have hna := hnone n hxmem hnT
        have hcellx : df.getCell (some n) stock = rowCell df.cols rx stock := by
          have h := getCell_of_mem hrxrows hnd stock
          rw [hrx1] at h
          exact h
        have hp := (List.mem_filter.mp hrx).2
        rw [← hcellx, hna] at hp
        simp at hp
    unfold Logics.get_price_on_or_before
    rw [hstock]
    simp only [Bool.not_true, Bool.false_eq_true, if_false]
    unfold Logics.idx_asof
    rw [hempty]
    rfl
  · -- calculator, no skipping
    intro df stock T N hsort hnd hNmem hNT hNa hmaxN
    have hble : Nat.ble N T = true := Nat.ble_eq.mpr hNT
    have hlast : (df.index.filter (StockCalculator.maskLe T)).getLast? =
        some (some N) := by
      apply getLast?_filter_max hsort hNmem
      · simpa [StockCalculator.maskLe]
      · intro x hx hxq
        cases x with
        | none => simp [StockCalculator.maskLe] at hxq
        | some n =>
          have hnT : n ≤ T := by
            simpa [StockCalculator.maskLe, Nat.ble_eq] using hxq
          have := hmaxN n hx hnT
          simpa [dleP, dle, Nat.ble_eq] using this
    have hexact : (if df.index.contains (some T) then
        (if !(df.getCell (some T) stock).isna then
          clean_numeric_value (df.getCell (some T) stock) else none)
        else none) = none := by
      by_cases hTmem : df.index.contains (some T)
      · have hTmem' : (some T) ∈ df.index := by
          simpa using hTmem
        have hTN : T = N := Nat.le_antisymm (hmaxN T hTmem' (Nat.le_refl T)) hNT
        rw [if_pos hTmem]
        subst hTN
        rw [hNa]
        rfl
      · rw [if_neg hTmem]
    unfold StockCalculator.get_price_on_date
    rw [hexact]
    simp only [hlast]
    rw [if_pos hNa]

/-- C2 witness: amended behaviors on the concrete dataset `C2df`. -/
theorem C2_asof_amended_witness :
    Logics.get_price_on_or_before C2df "A" 2 = Except.ok (1, 10) ∧
    Logics.get_price_on_or_before C2df "A" 0 =
        Except.error (Err.inputError "No trade price available.") ∧
    StockCalculator.get_price_on_date C2df "A" 2 =
        Except.error (Err.dataError "Price is missing on nearest date") := by
  refine ⟨?_, ?_, ?_⟩
  · refine C2_asof_amended.1 C2df "A" 2 1 10 (by decide) (by decide) (by decide)
      (by decide) (by decide) (by decide) ?_
    intro n hn h1 h2
    simp [C2df, DataFrame.index] at hn
    rcases hn with h | h
    · omega
    · subst h
      decide
  · refine C2_asof_amended.2.1 C2df "A" 0 (by decide) (by decide) ?_
    intro n hn h1
    simp [C2df, DataFrame.index] at hn
    rcases hn with h | h <;> omega
  · refine C2_asof_amended.2.2 C2df "A" 2 2 (by decide) (by decide) (by decide)
      (by decide) (by decide) ?_
    intro n hn h1
    simp [C2df, DataFrame.index] at hn
    rcases hn with h | h <;> omega

/-! ### C7 — batch isolation -/

theorem dictInsert_append {acc : List (String × Except Err TradeResult)} {k : String}
    (h : acc.any (fun kv => kv.1 == k) = false) (v : Except Err TradeResult) :
    StockCalculator.dictInsert acc k v = acc ++ [(k, v)] := by
  unfold StockCalculator.dictInsert
  rw [h]
  rfl

theorem foldl_dictInsert (f : String → Except Err TradeResult) :
    ∀ (stocks : List String) (acc : List (String × Except Err TradeResult)),
      (∀ st ∈ stocks, acc.any (fun kv => kv.1 == st) = false) → stocks.Nodup →
      stocks.foldl (fun m st => StockCalculator.dictInsert m st (f st)) acc =
        acc ++ stocks.map (fun st => (st, f st)) := by
  intro stocks
  induction stocks with
  | nil => intro acc _ _; simp
  | cons st rest ih =>
    intro acc hdisj hnd
    have hdisj' : ∀ st' ∈ rest,
        (acc ++ [(st, f st)]).any (fun kv => kv.1 == st') = false := by
      intro st' hst'
      have h1 := hdisj st' (List.mem_cons_of_mem st hst')
      have h2 : st ≠ st' := fun h => (List.nodup_cons.mp hnd).1 (h ▸ hst')
      simp only [List.any_append, h1, Bool.false_or, List.any_cons, List.any_nil,
        Bool.or_false]
      exact beq_eq_false_iff_ne.mpr h2
    rw [List.foldl_cons, dictInsert_append (hdisj st (List.mem_cons_self st rest)) (f st),
      ih (acc ++ [(st, f st)]) hdisj' (List.nodup_cons.mp hnd).2]
    simp

/-- C7: on a duplicate-free symbol list the batch evaluation returns one
entry per symbol, in order, each holding exactly what the single-trade
computation returns for that symbol alone (a `TradeResult` or that
symbol's own `InputError`/`DataError`); it never propagates a per-symbol
failure. -/
theorem C7_batch_isolation (store : Store) (stocks : List String) (q : ℚ)
    (p s : Nat) (hnd : stocks.Nodup) :
    StockCalculator.compute_multiple_trades store stocks q p s =
      stocks.map (fun stock => (stock, StockCalculator.compute_trade store stock q p s)) := by
  unfold StockCalculator.compute_multiple_trades
  have h := foldl_dictInsert
    (fun stock => StockCalculator.compute_trade store stock q p s) stocks []
    (fun st _ => rfl) hnd
  simpa using h

/-- Dataset and store for the C7 witness. -/
def C7df : DataFrame :=
  { cols := ["A"], rows := [(some 1, [Value.num 10]), (some 4, [Value.num 20])] }

/-- Store state around `C7df`. -/
def C7store : Store := { df := some C7df, symbols := ["A"], dateRange := some (1, 4) }

/-- C7 witness: a good and a bad symbol evaluated in one batch. -/
theorem C7_batch_isolation_witness :
    StockCalculator.compute_multiple_trades C7store ["A", "ZZZ"] 1 1 2 =
      [("A", StockCalculator.compute_trade C7store "A" 1 1 2),
       ("ZZZ", StockCalculator.compute_trade C7store "ZZZ" 1 1 2)] :=
  C7_batch_isolation C7store ["A", "ZZZ"] 1 1 2 (by decide)

/-! ### C8 — ingestion index invariants -/

/-- The empty store. -/
def C8store0 : Store := { df := none, symbols := [], dateRange := none }

/-- Raw input with two rows carrying the same date. -/
def C8raw : RawFrame :=
  { hasDate := true, cols := ["A"],
    rows := [(some 1, [Value.num 10]), (some 1, [Value.num 20])] }

/-- C8 counterexample: ingesting two rows with the same parsed date
succeeds and keeps BOTH rows — the date index is `[1, 1]`, which is not
strictly increasing, and the earlier occurrence is not dropped. -/
theorem C8_duplicate_dates_counterexample :
    (load_from_csv C8store0 (some C8raw)).2.2 = true ∧
    (load_from_csv C8store0 (some C8raw)).1.df =
      some { cols := ["A"],
             rows := [(some 1, [Value.num 10]), (some 1, [Value.num 20])] } := by
  decide

/-- The date index a loaded frame ends up with: the parsed dates that
survive `dropna`, insertion-sorted ascending. -/
theorem processFrame_index (raw : RawFrame) :
    (processFrame raw).index =
      List.insertionSort dleP ((raw.rows.map Prod.fst).filter (fun o => o.isSome)) := by
  unfold processFrame DataFrame.index
  rw [List.map_map]
  rw [show (Prod.fst ∘ fun r : Row =>
      ((r.1, r.2.map (fun v => match clean_numeric_value v with
        | some q => Value.num q
        | none => Value.missing)) : Row)) = Prod.fst from rfl]
  rw [List.map_insertionSort rleP dleP Prod.fst
    (raw.rows.filter (fun r => r.1.isSome)) (fun _ _ _ _ => Iff.rfl)]
  rw [List.filter_map]
  rfl

/-- C8 (amended): after a successful ingestion the date index is sorted
ascending but NOT deduplicated: it is exactly a sorted permutation of the
parsed dates of the rows that survived date parsing, duplicates
included. -/
theorem C8_sorted_index_amended (store : Store) (raw : RawFrame) (d : DataFrame)
    (hsucc : (load_from_csv store (some raw)).2.2 = true)
    (hdf : (load_from_csv store (some raw)).1.df = some d) :
    d.index.Sorted dleP ∧
      d.index.Perm ((raw.rows.map Prod.fst).filter (fun o => o.isSome)) := by
  have hd : d = processFrame raw := by
    unfold load_from_csv at hsucc hdf
    by_cases h1 : raw.rows.isEmpty
    · simp [h1] at hsucc
    · by_cases h2 : raw.hasDate
      · simp [h1, h2, installFrame] at hdf
        exact hdf.symm
      · simp [h1, h2] at hsucc
  subst hd
  rw [processFrame_index]
  exact ⟨List.sorted_insertionSort dleP _, List.perm_insertionSort dleP _⟩

/-- Raw input for the C8 witness: out-of-order dates and one unparseable
date cell. -/
def C8raw2 : RawFrame :=
  { hasDate := true, cols := ["A"],
    rows := [(some 2, [Value.num 1]), (none, [Value.num 2]), (some 1, [Value.num 3])] }

/-- C8 witness: the amended invariant at a concrete ingestion. -/
theorem C8_sorted_index_amended_witness :
    (load_from_csv C8store0 (some C8raw2)).2.2 = true ∧
    ((processFrame C8raw2).index.Sorted dleP ∧
      (processFrame C8raw2).index.Perm
        ((C8raw2.rows.map Prod.fst).filter (fun o => o.isSome))) :=
  ⟨by decide,
   C8_sorted_index_amended C8store0 C8raw2 (processFrame C8raw2) (by decide) (by decide)⟩

/-! ### C10 — merge idempotence -/

theorem DataFrame.ext' {x y : DataFrame} (h1 : x.cols = y.cols)
    (h2 : x.rows = y.rows) : x = y := by
  cases x
  cases y
  simp_all

/-- The cell-level absorption behind `combine_first` idempotence: filling
the gaps of an already-combined cell from `b` again changes nothing. -/
theorem combineCell_absorb (a b : DataFrame) (d : Option Nat) (s : String) :
    (if (combineCell a b d s).isna then b.getCell d s else combineCell a b d s) =
      combineCell a b d s := by
  unfold combineCell
  by_cases hna : (a.getCell d s).isna = true
  · simp only [if_pos hna]
    exact ite_self _
  · simp only [if_neg hna]

/-- A duplicate-free index has no duplicate labels. -/
theorem hasDupLabels_eq_false_of_nodup :
    ∀ {l : List (Option Nat)}, l.Nodup → hasDupLabels l = false := by
  intro l
  induction l with
  | nil => intro _; rfl
  | cons x xs ih =>
    intro h
    have h1 := List.nodup_cons.mp h
    have hc : xs.contains x = false := by
      cases hb : xs.contains x
      · rfl
      · exact absurd (List.elem_iff.mp hb) h1.1
    show (xs.contains x || hasDupLabels xs) = false
    rw [hc, ih h1.2]
    rfl

/-- The rows a sorted `combine_first` produces: the deduplicated index
union, sorted, each date paired with its combined cells. -/
theorem combine_sort_rows (a b : DataFrame) :
    (combine_first a b).sort_index.rows =
      (List.insertionSort dleP ((a.index ++ b.index).dedup)).map
        (fun d => (d, (a.cols ++ b.cols.filter
          (fun s => !(a.cols.contains s))).map (combineCell a b d))) := by
  show List.insertionSort rleP (((a.index ++ b.index).dedup).map
      (fun d => (d, (a.cols ++ b.cols.filter
        (fun s => !(a.cols.contains s))).map (combineCell a b d)))) = _
  exact (List.map_insertionSort dleP rleP
    (fun d => ((d, (a.cols ++ b.cols.filter
      (fun s => !(a.cols.contains s))).map (combineCell a b d)) : Row))
    ((a.index ++ b.index).dedup) (fun _ _ _ _ => Iff.rfl)).symm

/-- The index a sorted `combine_first` produces: the sorted,
deduplicated union of both indices. -/
theorem combine_sort_index (a b : DataFrame) :
    (combine_first a b).sort_index.index =
      List.insertionSort dleP ((a.index ++ b.index).dedup) := by
  show ((combine_first a b).sort_index.rows).map Prod.fst = _
  rw [combine_sort_rows, List.map_map]
  rw [show (Prod.fst ∘ fun d : Option Nat =>
      ((d, (a.cols ++ b.cols.filter
        (fun s => !(a.cols.contains s))).map (combineCell a b d)) : Row)) = id from rfl]
  exact List.map_id _

/-- A successful merge never leaves duplicate labels in the index. -/
theorem combine_sort_index_nodup (a b : DataFrame) :
    (combine_first a b).sort_index.index.Nodup := by
  rw [combine_sort_index]
  exact (List.perm_insertionSort dleP _).nodup_iff.mpr (List.nodup_dedup _)

theorem combine_first_sort_idem (a b : DataFrame) :
    (combine_first ((combine_first a b).sort_index) b).sort_index =
      (combine_first a b).sort_index := by
  have hM1cols : (combine_first a b).sort_index.cols =
      a.cols ++ b.cols.filter (fun s => !(a.cols.contains s)) := rfl
  have hM1rows := combine_sort_rows a b
  have hM1idx := combine_sort_index a b
  have hS1sorted : (List.insertionSort dleP ((a.index ++ b.index).dedup)).Sorted dleP :=
    List.sorted_insertionSort dleP _
  have hS1nodup : (List.insertionSort dleP ((a.index ++ b.index).dedup)).Nodup :=
    (List.perm_insertionSort dleP _).nodup_iff.mpr (List.nodup_dedup _)
  have hS1mem : ∀ x, x ∈ List.insertionSort dleP ((a.index ++ b.index).dedup) ↔
      (x ∈ a.index ∨ x ∈ b.index) := by
    intro x
    rw [List.mem_insertionSort, List.mem_dedup, List.mem_append]
  have hbcols : ∀ s ∈ b.cols,
      s ∈ a.cols ++ b.cols.filter (fun s => !(a.cols.contains s)) := by
    intro s hs
    by_cases h : a.cols.contains s
    · exact List.mem_append_left _ (List.elem_iff.mp h)
    · refine List.mem_append_right _ (List.mem_filter.mpr ⟨hs, ?_⟩)
      have h' : a.cols.contains s = false := Bool.not_eq_true _ ▸ eq_false_of_ne_true h
      rw [h']
      rfl
  have hcols2 : (combine_first ((combine_first a b).sort_index) b).cols =
      a.cols ++ b.cols.filter (fun s => !(a.cols.contains s)) := by
    show (combine_first a b).sort_index.cols ++ b.cols.filter
        (fun s => !((combine_first a b).sort_index.cols).contains s) = _
    rw [hM1cols]
    have hnil : b.cols.filter (fun s => !((a.cols ++ b.cols.filter
        (fun t => !(a.cols.contains t))).contains s)) = [] := by
      rw [List.filter_eq_nil_iff]
      intro s hs
      have hmem : (a.cols ++ b.cols.filter
          (fun t => !(a.cols.contains t))).contains s = true :=
        List.elem_iff.mpr (hbcols s hs)
      rw [hmem]
      decide
    rw [hnil, List.append_nil]
  have hidx2perm : (((combine_first a b).sort_index.index ++ b.index).dedup).Perm
      ((combine_first a b).sort_index.index) := by
    refine (List.perm_ext_iff_of_nodup (List.nodup_dedup _) ?_).mpr ?_
    · rw [hM1idx]
      exact hS1nodup
    · intro x
      rw [List.mem_dedup, List.mem_append, hM1idx, hS1mem]
      constructor
      · rintro (h | h)
        · exact h
        · exact Or.inr h
      · intro h
        exact Or.inl h
  have hS2eq : List.insertionSort dleP
      (((combine_first a b).sort_index.index ++ b.index).dedup) =
      (combine_first a b).sort_index.index := by
    refine List.eq_of_perm_of_sorted ((List.perm_insertionSort _ _).trans hidx2perm)
      (List.sorted_insertionSort _ _) ?_
    rw [hM1idx]
    exact hS1sorted
  have hget : ∀ d ∈ (combine_first a b).sort_index.index,
      ∀ s ∈ a.cols ++ b.cols.filter (fun t => !(a.cols.contains t)),
      (combine_first a b).sort_index.getCell d s = combineCell a b d s := by
    intro d hd s hs
    have hnd : (combine_first a b).sort_index.index.Nodup := by
      rw [hM1idx]
      exact hS1nodup
    have hdS1 : d ∈ List.insertionSort dleP ((a.index ++ b.index).dedup) := by
      rw [← hM1idx]
      exact hd
    have hrowmem : ((d, (a.cols ++ b.cols.filter
        (fun t => !(a.cols.contains t))).map (combineCell a b d)) : Row) ∈
        (combine_first a b).sort_index.rows := by
      rw [hM1rows]
      exact List.mem_map.mpr ⟨d, hdS1, rfl⟩
    have h := getCell_of_mem hrowmem hnd s
    exact h.trans (rowCell_map _ (combineCell a b d) d s hs)
  have hmapeq : ((combine_first a b).sort_index.index).map
      (fun d => (d, (a.cols ++ b.cols.filter
        (fun t => !(a.cols.contains t))).map
          (combineCell ((combine_first a b).sort_index) b d))) =
      ((combine_first a b).sort_index.index).map
      (fun d => (d, (a.cols ++ b.cols.filter
        (fun t => !(a.cols.contains t))).map (combineCell a b d))) := by
    refine List.map_congr_left ?_
    intro d hd
    have hcells : (a.cols ++ b.cols.filter (fun t => !(a.cols.contains t))).map
        (combineCell ((combine_first a b).sort_index) b d) =
        (a.cols ++ b.cols.filter (fun t => !(a.cols.contains t))).map
          (combineCell a b d) := by
      refine List.map_congr_left ?_
      intro s hs
      show (if ((combine_first a b).sort_index.getCell d s).isna then b.getCell d s
        else (combine_first a b).sort_index.getCell d s) = combineCell a b d s
      rw [hget d hd s hs]
      exact combineCell_absorb a b d s
    rw [hcells]
  have hrows2 : (combine_first ((combine_first a b).sort_index) b).sort_index.rows =
      (combine_first a b).sort_index.rows := by
    show List.insertionSort rleP
        ((((combine_first a b).sort_index.index ++ b.index).dedup).map
          (fun d => (d, (combine_first ((combine_first a b).sort_index) b).cols.map
            (combineCell ((combine_first a b).sort_index) b d)))) = _
    rw [hcols2]
    rw [← List.map_insertionSort dleP rleP
      (fun d => ((d, (a.cols ++ b.cols.filter
        (fun s => !(a.cols.contains s))).map
          (combineCell ((combine_first a b).sort_index) b d)) : Row))
      (((combine_first a b).sort_index.index ++ b.index).dedup)
      (fun _ _ _ _ => Iff.rfl)]
    rw [hS2eq, hmapeq, hM1idx]
    exact hM1rows.symm
  refine DataFrame.ext' ?_ hrows2
  show (combine_first ((combine_first a b).sort_index) b).cols = _
  rw [hcols2, ← hM1cols]

/-- The empty store. -/
def C10store0 : Store := { df := none, symbols := [], dateRange := none }

/-- Fragment whose only price cell is the unparsable string "abc". -/
def C10frag : RawFrame :=
  { hasDate := true, cols := ["A"], rows := [(some 1, [Value.str "abc"])] }

/-- C10 counterexample: merging the fragment into an EMPTY store goes
through `update_data`'s cleaning (the cell becomes missing), but merging
it a second time goes through `combine_first` with the raw fragment, so
the raw string fills the missing cell — the Datasets after one and after
two merges differ. -/
theorem C10_empty_store_counterexample :
    (merge_with_new_data C10store0 C10frag).1.df =
      some { cols := ["A"], rows := [(some 1, [Value.missing])] } ∧
    (merge_with_new_data (merge_with_new_data C10store0 C10frag).1 C10frag).1.df =
      some { cols := ["A"], rows := [(some 1, [Value.str "abc"])] } ∧
    (merge_with_new_data (merge_with_new_data C10store0 C10frag).1 C10frag).1.df ≠
      (merge_with_new_data C10store0 C10frag).1.df := by
  exact ⟨by decide, by decide, by decide⟩

/-- C10 (amended): for every store that ALREADY holds a Dataset, merging
the same fragment twice yields exactly the store state (hence Dataset)
that merging it once yields.  (With an empty store the first merge runs
`update_data`'s cleaning pipeline while the second runs `combine_first`
on the raw fragment, and the results can differ.) -/
theorem C10_idempotent_amended (store : Store) (raw : RawFrame) (old : DataFrame)
    (hdf : store.df = some old) :
    (merge_with_new_data (merge_with_new_data store raw).1 raw).1 =
      (merge_with_new_data store raw).1 := by
  by_cases hdup : (hasDupLabels old.index ||
      hasDupLabels ({ cols := raw.cols, rows := raw.rows } : DataFrame).index) = true
  · -- duplicate labels: both merges fail, leaving the store untouched
    have h1 : merge_with_new_data store raw =
        (store, [Event.error_occurred "Failed to merge data"], false) := by
      unfold merge_with_new_data
      rw [hdf]
      exact if_pos hdup
    rw [h1]
    show (merge_with_new_data store raw).1 = store
    rw [h1]
  · -- both merges succeed; combine_first absorbs the second
    have hfrag : hasDupLabels
        ({ cols := raw.cols, rows := raw.rows } : DataFrame).index = false := by
      cases hb : hasDupLabels ({ cols := raw.cols, rows := raw.rows } : DataFrame).index
      · rfl
      · exact absurd (by rw [hb]; simp) hdup
    have h1 : merge_with_new_data store raw =
        installFrame
          ((combine_first old { cols := raw.cols, rows := raw.rows }).sort_index)
          Event.data_updated := by
      unfold merge_with_new_data
      rw [hdf]
      exact if_neg hdup
    have hM1nodup :=
      combine_sort_index_nodup old ({ cols := raw.cols, rows := raw.rows } : DataFrame)
    have hcond2 : ¬ ((hasDupLabels
        ((combine_first old ({ cols := raw.cols, rows := raw.rows } : DataFrame)).sort_index).index ||
        hasDupLabels ({ cols := raw.cols, rows := raw.rows } : DataFrame).index) = true) := by
      intro hc
      rw [hasDupLabels_eq_false_of_nodup hM1nodup, hfrag] at hc
      simp at hc
    have h2 : merge_with_new_data
        (installFrame
          ((combine_first old { cols := raw.cols, rows := raw.rows }).sort_index)
          Event.data_updated).1 raw =
        installFrame
          ((combine_first
            ((combine_first old { cols := raw.cols, rows := raw.rows }).sort_index)
            { cols := raw.cols, rows := raw.rows }).sort_index)
          Event.data_updated := by
      unfold merge_with_new_data
      simp only [installFrame]
      rw [if_neg hcond2]
    rw [h1, h2, combine_first_sort_idem old { cols := raw.cols, rows := raw.rows }]

/-- Dataset already held by the store in the C10 witness. -/
def C10df : DataFrame := { cols := ["A"], rows := [(some 1, [Value.num 5])] }

/-- Store state around `C10df`. -/
def C10store1 : Store := { df := some C10df, symbols := ["A"], dateRange := some (1, 1) }

/-- Fragment merged twice in the C10 witness. -/
def C10frag2 : RawFrame :=
  { hasDate := true, cols := ["A"], rows := [(some 2, [Value.num 7])] }

/-- C10 witness: double merge equals single merge on a loaded store. -/
theorem C10_idempotent_amended_witness :
    (merge_with_new_data (merge_with_new_data C10store1 C10frag2).1 C10frag2).1 =
      (merge_with_new_data C10store1 C10frag2).1 :=
  C10_idempotent_amended C10store1 C10frag2 C10df rfl

end Stockvenant
